import Mathlib

/-!
Verification development for the FResQ driver dashboard core: the route-geometry
resolution effect and stop-marker rendering of `MapComponent.jsx`, and the
order-fetch action, location-lookup construction and order-urgency styling of the
`App` component. JavaScript numbers that carry coordinates are modelled as `Rat`;
minute counts and timestamps as `Int`; a JS value that may be `null`/`undefined`
as `Option`; a string-keyed JS object used as a map as a function
`String → Option _`.
-/

/-- Geographic coordinate object `{lat, lon}` as the app builds and reads it. -/
structure Location where
  lat : Rat
  lon : Rat
deriving DecidableEq, Repr

/-- Pickup time window of an order; the JS field `end` is modelled as `end_`. -/
structure PickupWindow where
  start : Int
  end_ : Int
deriving DecidableEq, Repr

/-- One order as consumed by the dashboard. `pickup_window` may be absent. -/
structure Order where
  id : String
  details : String
  ngo_name : String
  pickup_location : Location
  delivery_location : Location
  pickup_window : Option PickupWindow
deriving DecidableEq, Repr

/-- The driver vehicle. -/
structure Vehicle where
  id : String
  capacity : Int
  start_location : Location
deriving DecidableEq, Repr

/-- One element of the optimizer's ordered route output. -/
structure Stop where
  location_id : String
  type : String
deriving DecidableEq, Repr

/-- A rendered path point is the 2-element array `[lat, lon]`; the whole route
path is an ordered list of such points. Modelled as pairs whose first component
is the latitude. -/
abbrev RoutePath := List (Rat × Rat)

/-- The `geometry` object of one OSRM route: `coordinates` is an ordered list of
`[lon, lat]` arrays, modelled as pairs whose first component is the longitude. -/
structure OsrmGeometry where
  coordinates : List (Rat × Rat)
deriving DecidableEq, Repr

/-- One element of `response.data.routes` in an OSRM response. -/
structure OsrmRoute where
  geometry : OsrmGeometry
deriving DecidableEq, Repr

/-- Outcome of the `axios.get` call in `fetchRoadShape`, as the surrounding code
can observe it: either the request settled without throwing, carrying
`response.data.routes` (a missing or empty `routes` field both make the guard
`routes && routes.length > 0` false, so both are modelled as the empty list), or
some step threw (network error, non-2xx status, malformed body access) and
control reached the `catch` block. -/
inductive FetchResult where
  | ok (routes : List OsrmRoute)
  | error
deriving DecidableEq, Repr

/-- Waypoint extraction of the route effect (`MapComponent.jsx` lines 84-87):
`route.map(point => locations[point.location_id]).filter(Boolean)`, then
`waypoints.unshift(locations["DEPOT"])` when the lookup has a `DEPOT` entry. -/
def extractWaypoints (route : List Stop) (locations : String → Option Location) :
    List Location :=
  let waypoints := route.filterMap (fun point => locations point.location_id)
  match locations "DEPOT" with
  | some depot => depot :: waypoints
  | none => waypoints

/-- State update performed when the fetch of `fetchRoadShape` settles
(`MapComponent.jsx` lines 95-104): a response whose `routes` list is non-empty
sets the path to the first route's `geometry.coordinates` with each `[lon, lat]`
flipped to `[lat, lon]`; a response with no routes skips the `if` body and leaves
the path state untouched; a thrown error is caught and sets the straight-line
fallback `waypoints.map(w => [w.lat, w.lon])` over the captured waypoints. -/
def applyFetch (waypoints : List Location) (result : FetchResult) (prev : RoutePath) :
    RoutePath :=
  match result with
  | .ok [] => prev
  | .ok (r :: _) => r.geometry.coordinates.map (fun c => (c.2, c.1))
  | .error => waypoints.map (fun w => (w.lat, w.lon))

/-- Synchronous prefix of the route effect (`MapComponent.jsx` lines 78-89): a
null or empty `route` resets the path to `[]` and launches nothing; otherwise the
waypoints are extracted and, when fewer than 2 remain, the effect returns without
touching the path; else the fetch is launched over the extracted waypoints.
Returns the path state after the prefix together with the waypoint list captured
by `fetchRoadShape` when a fetch is launched. -/
def startResolution (route : Option (List Stop)) (locations : String → Option Location)
    (prev : RoutePath) : RoutePath × Option (List Location) :=
  match route with
  | none => ([], none)
  | some stops =>
    if stops.length < 1 then ([], none)
    else
      let waypoints := extractWaypoints stops locations
      if waypoints.length < 2 then (prev, none)
      else (prev, some waypoints)

/-- One whole run of the route effect in isolation: the synchronous prefix
followed, when a fetch was launched, by the application of its result. -/
def routeEffect (route : Option (List Stop)) (locations : String → Option Location)
    (fetch : List Location → FetchResult) (prev : RoutePath) : RoutePath :=
  match startResolution route locations prev with
  | (s, none) => s
  | (s, some waypoints) => applyFetch waypoints (fetch waypoints) s

/-- Interleaving of two resolutions in which A starts, then B starts before A's
fetch settles, B's fetch settles first and A's settles last. The effect installs
no cleanup and compares no request token, so each completion applies its captured
update directly to whatever the state then is. -/
def staleScenario (routeA : Option (List Stop)) (locA : String → Option Location)
    (fA : FetchResult) (routeB : Option (List Stop)) (locB : String → Option Location)
    (fB : FetchResult) (s0 : RoutePath) : RoutePath :=
  let r1 := startResolution routeA locA s0
  let r2 := startResolution routeB locB r1.1
  let s3 := match r2.2 with
    | none => r2.1
    | some w => applyFetch w fB r2.1
  match r1.2 with
  | none => s3
  | some w => applyFetch w fA s3

/-- Stop markers rendered by the map compositor (`MapComponent.jsx` lines
143-162): for each stop of the route, nothing is rendered when its `location_id`
has no lookup entry or its type is `"start"`; otherwise one marker at the stop's
looked-up location. A null route renders no markers. -/
def stopMarkers (route : Option (List Stop)) (locations : String → Option Location) :
    List (Stop × Location) :=
  match route with
  | none => []
  | some stops =>
    stops.filterMap (fun point =>
      match locations point.location_id with
      | none => none
      | some loc => if point.type = "start" then none else some (point, loc))

/-- Style object returned by `getOrderStyle`; `animation` is absent on the
non-critical branches. -/
structure OrderStyle where
  borderLeft : String
  background : String
  color : String
  animation : Option String
deriving DecidableEq, Repr

/-- Urgency tier of the spec's OrderUrgencyClassifier, read off a rendered card
style. -/
inductive UrgencyTier where
  | CRITICAL
  | HIGH
  | NORMAL
deriving DecidableEq, Repr

/-- `getOrderStyle` of the `App` component (`part_000` lines 89-113), verbatim:
the branch is chosen by `minsRemaining`, the colors by `darkMode`. -/
def getOrderStyle (darkMode : Bool) (minsRemaining : Int) : OrderStyle :=
  if minsRemaining ≤ 120 then
    { borderLeft := "6px solid #e74c3c"
      background := if darkMode then "#342222" else "#fce4e4"
      color := if darkMode then "#ecf0f1" else "#2c3e50"
      animation := some "pulse 2s infinite" }
  else if minsRemaining ≤ 300 then
    { borderLeft := "6px solid #e67e22"
      background := if darkMode then "#34495e" else "#fff3e0"
      color := if darkMode then "#ecf0f1" else "#2c3e50"
      animation := none }
  else
    { borderLeft := "4px solid #2ecc71"
      background := if darkMode then "#34495e" else "#e8f8f5"
      color := if darkMode then "#ecf0f1" else "#2c3e50"
      animation := none }

/-- The tier a rendered style belongs to, identified by its border treatment:
the red critical border, the orange high-priority border, or the green normal
border. -/
def styleTier (s : OrderStyle) : UrgencyTier :=
  if s.borderLeft = "6px solid #e74c3c" then .CRITICAL
  else if s.borderLeft = "6px solid #e67e22" then .HIGH
  else .NORMAL

/-- Minutes-remaining value the order card rendering feeds to `getOrderStyle`
(`part_000` line 203): `order.pickup_window ? order.pickup_window.end : 999`. -/
def minutesLeftOf (order : Order) : Int :=
  match order.pickup_window with
  | some w => w.end_
  | none => 999

/-- The card's critical flag (`part_000` line 205): `minutesLeft <= 120`. -/
def isCritical (minutesLeft : Int) : Bool :=
  minutesLeft ≤ 120

/-- JS assignment of one key of a string-keyed object used as a map, modelled as
function update. -/
def objSet (m : String → Option Location) (k : String) (v : Location) :
    String → Option Location :=
  fun k' => if k' = k then some v else m k'

/-- One iteration of the `orders.forEach` loop of `createLocationLookup`
(`part_000` lines 81-85): assign the order's `_pickup` key, then its
`_delivery` key. -/
def addOrderKeys (acc : String → Option Location) (order : Order) :
    String → Option Location :=
  objSet (objSet acc (order.id ++ "_pickup") order.pickup_location)
    (order.id ++ "_delivery") order.delivery_location

/-- `createLocationLookup` of the `App` component (`part_000` lines 74-87): the
three depot keys are assigned the vehicle's start location when a vehicle is
set, then every order contributes its `_pickup` and `_delivery` keys. -/
def createLocationLookup (vehicle : Option Vehicle) (orders : List Order) :
    String → Option Location :=
  let lookup : String → Option Location := fun _ => none
  let lookup := match vehicle with
    | some v =>
      objSet (objSet (objSet lookup "DEPOT" v.start_location)
        "DEPOT_START" v.start_location) "DEPOT_END" v.start_location
    | none => lookup
  orders.foldl addOrderKeys lookup

/-- The default driver vehicle `myVehicle` built inside `handleFetchLive`
(`part_000` lines 23-27); Kota center as start location. -/
def myVehicle : Vehicle :=
  { id := "Driver_1", capacity := 100
    start_location := { lat := 25.1825, lon := 75.8236 } }

/-- Session state held by the `App` component. `distance` holds whatever
`setDistance` last stored (initially 0); no operation modelled here writes it. -/
structure AppState where
  vehicle : Option Vehicle
  orders : List Order
  route : Option (List Stop)
  distance : Rat
  loading : Bool
  error : Option String
deriving DecidableEq, Repr

/-- Outcome of the `axios.get` order fetch inside `handleFetchLive`: the order
list on success, or a thrown error. -/
inductive OrdersFetchResult where
  | ok (orders : List Order)
  | err
deriving Repr

/-- Sort key of `handleFetchLive`'s comparator `a.pickup_window.end -
b.pickup_window.end`. The JS comparator assumes `pickup_window` is present; an
absent window is given key 0 here (no claim exercises that corner). -/
def windowEnd (order : Order) : Int :=
  match order.pickup_window with
  | some w => w.end_
  | none => 0

/-- `handleFetchLive` of the `App` component (`part_000` lines 17-48) as a state
transformer over the session state, parametrised by the fetch outcome. The
synchronous prefix sets loading, clears the route and the error; `setVehicle`
runs before the awaited fetch, so it takes effect on the failure path too; on
failure the catch block surfaces the message; `finally` clears loading. -/
def handleFetchLive (s : AppState) (res : OrdersFetchResult) : AppState :=
  let s := { s with loading := true, route := none, error := none }
  let s := { s with vehicle := some myVehicle }
  match res with
  | .err =>
    { s with error := some "Failed to fetch orders. Is backend running?", loading := false }
  | .ok liveOrders =>
    if liveOrders.length = 0 then
      { s with error := some "No active orders found. Go to /customer to create one!"
               orders := [], loading := false }
    else
      { s with orders := liveOrders.mergeSort (fun a b => windowEnd a ≤ windowEnd b)
               loading := false }

/-! Helper lemmas shared by the claim theorems. -/

/-- The tier of a rendered card style as a function of the minutes value: the
three branches of `getOrderStyle` carry three pairwise distinct border
treatments. -/
theorem styleTier_getOrderStyle (dm : Bool) (m : Int) :
    styleTier (getOrderStyle dm m) =
      if m ≤ 120 then UrgencyTier.CRITICAL
      else if m ≤ 300 then UrgencyTier.HIGH
      else UrgencyTier.NORMAL := by
  unfold getOrderStyle styleTier
  split_ifs <;> simp_all

/-- A string cannot equal an append whose right part is not a suffix of it. -/
theorem string_append_ne {s t u : String} (h : ¬ (t.data <:+ u.data)) :
    u ≠ s ++ t := by
  intro he
  exact h ⟨s.data, congrArg String.data he.symm⟩

/-- The order loop of `createLocationLookup` leaves every key untouched that is
no order's `_pickup` or `_delivery` key. -/
theorem foldl_addOrderKeys_apply_of_ne (orders : List Order)
    (base : String → Option Location) (k : String)
    (h : ∀ o ∈ orders, k ≠ o.id ++ "_pickup" ∧ k ≠ o.id ++ "_delivery") :
    orders.foldl addOrderKeys base k = base k := by
  induction orders generalizing base with
  | nil => rfl
  | cons o os ih =>
    rw [List.foldl_cons, ih _ (fun o' ho' => h o' (List.mem_cons_of_mem o ho'))]
    have h1 := (h o (List.mem_cons_self o os)).1
    have h2 := (h o (List.mem_cons_self o os)).2
    simp [addOrderKeys, objSet, h1, h2]

/-- A key is present after the order loop of `createLocationLookup` exactly when
it was present before or is some listed order's `_pickup` or `_delivery` key. -/
theorem foldl_addOrderKeys_isSome (orders : List Order)
    (base : String → Option Location) (k : String) :
    (orders.foldl addOrderKeys base k).isSome = true ↔
      (base k).isSome = true ∨
        ∃ o ∈ orders, k = o.id ++ "_pickup" ∨ k = o.id ++ "_delivery" := by
  induction orders generalizing base with
  | nil => simp
  | cons o os ih =>
    have hstep : (addOrderKeys base o k).isSome = true ↔
        k = o.id ++ "_pickup" ∨ k = o.id ++ "_delivery" ∨ (base k).isSome = true := by
      unfold addOrderKeys objSet
      split_ifs <;> simp_all
    rw [List.foldl_cons, ih, hstep]
    simp only [List.exists_mem_cons_iff]
    aesop

/-- The three depot keys are never any order's `_pickup` or `_delivery` key, so
the order loop leaves them untouched. -/
theorem depot_keys_fixed (orders : List Order) (base : String → Option Location)
    (k : String) (hk : k = "DEPOT" ∨ k = "DEPOT_START" ∨ k = "DEPOT_END") :
    orders.foldl addOrderKeys base k = base k := by
  apply foldl_addOrderKeys_apply_of_ne
  intro o _
  rcases hk with rfl | rfl | rfl
  · exact ⟨string_append_ne (by decide), string_append_ne (by decide)⟩
  · exact ⟨string_append_ne (by decide), string_append_ne (by decide)⟩
  · exact ⟨string_append_ne (by decide), string_append_ne (by decide)⟩

/-! Claim theorems. -/

/-- C4: for every integer minutes value, `getOrderStyle` renders the critical
style exactly when the value is at most 120 (0 and negatives included), the
high-priority style exactly when it lies in (120, 300], and the normal style
exactly when it exceeds 300; in particular 120 is critical, 121 and 300 are
high, 301 is normal, and the three bands partition the integers. -/
theorem c4_urgency_bands (dm : Bool) (m : Int) :
    (styleTier (getOrderStyle dm m) = UrgencyTier.CRITICAL ↔ m ≤ 120) ∧
    (styleTier (getOrderStyle dm m) = UrgencyTier.HIGH ↔ 120 < m ∧ m ≤ 300) ∧
    (styleTier (getOrderStyle dm m) = UrgencyTier.NORMAL ↔ 300 < m) ∧
    styleTier (getOrderStyle dm 120) = UrgencyTier.CRITICAL ∧
    styleTier (getOrderStyle dm 121) = UrgencyTier.HIGH ∧
    styleTier (getOrderStyle dm 300) = UrgencyTier.HIGH ∧
    styleTier (getOrderStyle dm 301) = UrgencyTier.NORMAL := by
  simp only [styleTier_getOrderStyle]
  refine ⟨?_, ?_, ?_, ?_, ?_, ?_, ?_⟩ <;>
    · split_ifs <;> simp_all <;> omega

/-- C4 witness: the boundary value 120 is classified critical. -/
theorem c4_witness : styleTier (getOrderStyle true 120) = UrgencyTier.CRITICAL :=
  (c4_urgency_bands true 120).2.2.2.1

/-- C9: an order without a `pickup_window` field gets 999 as its minutes value,
so its card always renders in the normal tier and is never flagged critical. -/
theorem c9_missing_window_normal (dm : Bool) (order : Order)
    (h : order.pickup_window = none) :
    minutesLeftOf order = 999 ∧
    styleTier (getOrderStyle dm (minutesLeftOf order)) = UrgencyTier.NORMAL ∧
    isCritical (minutesLeftOf order) = false := by
  have h999 : minutesLeftOf order = 999 := by unfold minutesLeftOf; rw [h]
  refine ⟨h999, ?_, ?_⟩
  · rw [h999, styleTier_getOrderStyle]
    rw [if_neg (by decide), if_neg (by decide)]
  · rw [h999]
    decide

/-- A concrete order with no pickup window, for the C9 witness. -/
def c9order : Order :=
  { id := "o9", details := "", ngo_name := ""
    pickup_location := { lat := 0, lon := 0 }
    delivery_location := { lat := 0, lon := 0 }
    pickup_window := none }

/-- C9 witness: the concrete windowless order evaluates to the normal tier. -/
theorem c9_witness :
    minutesLeftOf c9order = 999 ∧
    styleTier (getOrderStyle true (minutesLeftOf c9order)) = UrgencyTier.NORMAL ∧
    isCritical (minutesLeftOf c9order) = false :=
  c9_missing_window_normal true c9order rfl

/-- C10: with a vehicle set, the built lookup maps the three keys `DEPOT`,
`DEPOT_START` and `DEPOT_END` to the vehicle's start location, and its key set
is exactly those three depot keys together with the `_pickup` and `_delivery`
keys of the listed orders. -/
theorem c10_lookup_depot_and_domain (v : Vehicle) (orders : List Order) :
    (createLocationLookup (some v) orders "DEPOT" = some v.start_location ∧
     createLocationLookup (some v) orders "DEPOT_START" = some v.start_location ∧
     createLocationLookup (some v) orders "DEPOT_END" = some v.start_location) ∧
    ∀ k : String, (createLocationLookup (some v) orders k).isSome = true ↔
      (k = "DEPOT" ∨ k = "DEPOT_START" ∨ k = "DEPOT_END" ∨
        ∃ o ∈ orders, k = o.id ++ "_pickup" ∨ k = o.id ++ "_delivery") := by
  constructor
  · refine ⟨?_, ?_, ?_⟩ <;>
      · simp only [createLocationLookup]
        rw [depot_keys_fixed _ _ _ (by tauto)]
        rfl
  · intro k
    simp only [createLocationLookup]
    rw [foldl_addOrderKeys_isSome]
    unfold objSet
    split_ifs <;> simp_all

/-- A stop whose location id misses every lookup, for the C1 theorems. -/
def c1stop : Stop := { location_id := "missing", type := "pickup" }

/-- C1 counterexample: a non-empty stop list that resolves to fewer than 2
waypoints does not produce an empty RoutePath — the effect returns without
updating the state, so a previous non-empty path stays displayed. -/
theorem c1_counterexample :
    routeEffect (some [c1stop]) (fun _ => none) (fun _ => FetchResult.error)
      [(1, 2)] = [(1, 2)] ∧
    ([((1 : Rat), (2 : Rat))] : RoutePath) ≠ [] := by decide

/-- C1 amended: a null or empty stop list resets the RoutePath to empty, but a
non-empty stop list leaving fewer than 2 waypoints makes the effect return with
the previously displayed RoutePath unchanged. -/
theorem c1_degenerate_behaviour (locations : String → Option Location)
    (fetch : List Location → FetchResult) (prev : RoutePath) :
    routeEffect none locations fetch prev = [] ∧
    routeEffect (some []) locations fetch prev = [] ∧
    ∀ stops : List Stop, stops ≠ [] →
      (extractWaypoints stops locations).length < 2 →
      routeEffect (some stops) locations fetch prev = prev := by
  refine ⟨rfl, rfl, ?_⟩
  intro stops hne hlen
  have h1 : ¬ stops.length < 1 := by
    cases stops with
    | nil => exact absurd rfl hne
    | cons a l => simp
  simp only [routeEffect, startResolution]
  rw [if_neg h1, if_pos hlen]

/-- C1 witness: a singleton unresolvable stop list with a one-point previous
path leaves that path in place. -/
theorem c1_witness :
    routeEffect (some [c1stop]) (fun _ => none) (fun _ => FetchResult.error)
      [(1, 2)] = [(1, 2)] :=
  (c1_degenerate_behaviour (fun _ => none) (fun _ => FetchResult.error)
    [(1, 2)]).2.2 [c1stop] (by decide) (by decide)

/-- Two resolvable stops, for the C2 theorems. -/
def c2stops : List Stop :=
  [{ location_id := "A", type := "pickup" }, { location_id := "B", type := "delivery" }]

/-- A lookup resolving the two C2 stops. -/
def c2lookup : String → Option Location :=
  fun k => if k = "A" then some { lat := 1, lon := 1 }
    else if k = "B" then some { lat := 2, lon := 2 } else none

/-- C2 counterexample: an error-free response whose route list is empty is a
routing-service failure by the claim's own list, yet with 2 waypoints the effect
does not set the straight-line path — it performs no update at all, keeping the
previous path. -/
theorem c2_counterexample :
    2 ≤ (extractWaypoints c2stops c2lookup).length ∧
    routeEffect (some c2stops) c2lookup (fun _ => FetchResult.ok []) [(9, 9)]
      = [(9, 9)] ∧
    routeEffect (some c2stops) c2lookup (fun _ => FetchResult.ok []) [(9, 9)]
      ≠ (extractWaypoints c2stops c2lookup).map (fun w => (w.lat, w.lon)) := by
  decide

/-- C2 amended: a routing-service failure that throws (network error, non-2xx
status, malformed body access) makes the effect set the straight-line sequence
of the extracted waypoints, one point per waypoint in order, and the total
function never raises; but an error-free response whose route list is empty or
missing leaves the displayed RoutePath unchanged instead. -/
theorem c2_fallback_behaviour (stops : List Stop)
    (locations : String → Option Location) (prev : RoutePath)
    (h2 : 2 ≤ (extractWaypoints stops locations).length) :
    routeEffect (some stops) locations (fun _ => FetchResult.error) prev =
      (extractWaypoints stops locations).map (fun w => (w.lat, w.lon)) ∧
    routeEffect (some stops) locations (fun _ => FetchResult.ok []) prev = prev := by
  have h1 : ¬ stops.length < 1 := by
    cases stops with
    | nil =>
      exfalso
      unfold extractWaypoints at h2
      cases h : locations "DEPOT" <;> rw [h] at h2 <;> simp at h2
    | cons a l => simp
  have hw : ¬ (extractWaypoints stops locations).length < 2 := by omega
  constructor <;>
    · simp only [routeEffect, startResolution]
      rw [if_neg h1, if_neg hw]
      rfl

/-- C2 witness: the concrete two-waypoint instance, under a thrown error and
under an empty route list. -/
theorem c2_witness :
    routeEffect (some c2stops) c2lookup (fun _ => FetchResult.error) [(9, 9)] =
      (extractWaypoints c2stops c2lookup).map (fun w => (w.lat, w.lon)) ∧
    routeEffect (some c2stops) c2lookup (fun _ => FetchResult.ok []) [(9, 9)]
      = [(9, 9)] :=
  c2_fallback_behaviour c2stops c2lookup [(9, 9)] (by decide)

/-- Resolution A's stop list, for the C3 theorems. -/
def c3routeA : List Stop :=
  [{ location_id := "A1", type := "pickup" }, { location_id := "A2", type := "delivery" }]

/-- Resolution A's lookup. -/
def c3locA : String → Option Location :=
  fun k => if k = "A1" then some { lat := 1, lon := 1 }
    else if k = "A2" then some { lat := 1, lon := 2 } else none

/-- Resolution B's stop list, different from A's. -/
def c3routeB : List Stop :=
  [{ location_id := "B1", type := "pickup" }, { location_id := "B2", type := "delivery" }]

/-- Resolution B's lookup. -/
def c3locB : String → Option Location :=
  fun k => if k = "B1" then some { lat := 2, lon := 1 }
    else if k = "B2" then some { lat := 2, lon := 2 } else none

/-- C3 counterexample: A starts, B starts with different inputs before A
completes, B completes first, A completes last — and the displayed RoutePath
ends as A's straight-line result, not B's, so A's stale completion did
overwrite B's result. -/
theorem c3_counterexample :
    staleScenario (some c3routeA) c3locA FetchResult.error
      (some c3routeB) c3locB FetchResult.error [] = [(1, 1), (1, 2)] ∧
    routeEffect (some c3routeB) c3locB (fun _ => FetchResult.error) []
      = [(2, 1), (2, 2)] ∧
    ([((1 : Rat), (1 : Rat)), (1, 2)] : RoutePath) ≠ [(2, 1), (2, 2)] := by
  decide

/-- C3 amended: the effect has no stale-response suppression — completions apply
in completion order, so when resolution A launched a fetch and its error
completion arrives last, the displayed RoutePath is A's straight-line fallback
whatever resolution B displayed in between; likewise A's successful completion
with a non-empty route list installs A's geometry. -/
theorem c3_last_completion_wins (routeA routeB : Option (List Stop))
    (locA locB : String → Option Location) (fB : FetchResult) (s0 : RoutePath)
    (wpsA : List Location)
    (hA : (startResolution routeA locA s0).2 = some wpsA) :
    staleScenario routeA locA FetchResult.error routeB locB fB s0 =
      wpsA.map (fun w => (w.lat, w.lon)) ∧
    ∀ (r : OsrmRoute) (rs : List OsrmRoute),
      staleScenario routeA locA (FetchResult.ok (r :: rs)) routeB locB fB s0 =
        r.geometry.coordinates.map (fun c => (c.2, c.1)) := by
  constructor
  · simp only [staleScenario]
    rw [hA]
    rfl
  · intro r rs
    simp only [staleScenario]
    rw [hA]
    rfl

/-- C3 witness: the concrete interleaving instance of the amended statement. -/
theorem c3_witness :
    staleScenario (some c3routeA) c3locA FetchResult.error
      (some c3routeB) c3locB FetchResult.error [] =
      (extractWaypoints c3routeA c3locA).map (fun w => (w.lat, w.lon)) :=
  (c3_last_completion_wins (some c3routeA) (some c3routeB) c3locA c3locB
    FetchResult.error [] (extractWaypoints c3routeA c3locA) (by decide)).1

/-- The single order of the spec's end-to-end example, for the C5 theorems. -/
def c5order : Order :=
  { id := "order1", details := "", ngo_name := ""
    pickup_location := { lat := 25.20, lon := 75.85 }
    delivery_location := { lat := 25.15, lon := 75.80 }
    pickup_window := none }

/-- The optimizer stops of the end-to-end example. -/
def c5stops : List Stop :=
  [{ location_id := "DEPOT", type := "start" },
   { location_id := "order1_pickup", type := "pickup" },
   { location_id := "order1_delivery", type := "delivery" }]

/-- The lookup of the end-to-end example, built per the data model from the
default vehicle and the single order. -/
def c5lookup : String → Option Location :=
  createLocationLookup (some myVehicle) [c5order]

/-- C5 counterexample: on the end-to-end example input the resolver operates on
4 waypoints, not 3 — the depot is not deduplicated: it enters once through the
explicit DEPOT stop and once more through the unconditional unshift — and the
failure-path RoutePath accordingly has 4 points, not 3. -/
theorem c5_counterexample :
    (extractWaypoints c5stops c5lookup).length = 4 ∧
    (extractWaypoints c5stops c5lookup).length ≠ 3 ∧
    (routeEffect (some c5stops) c5lookup (fun _ => FetchResult.error) []).length = 4 ∧
    (routeEffect (some c5stops) c5lookup (fun _ => FetchResult.error) []).length ≠ 3 := by
  decide

/-- C5 amended: on the end-to-end example input the resolver operates on exactly
4 waypoints — the depot coordinates appearing twice, followed by pickup and
delivery — and on routing-service failure the RoutePath equals those 4 waypoint
coordinates in order. -/
theorem c5_example_end_to_end :
    extractWaypoints c5stops c5lookup =
      [myVehicle.start_location, myVehicle.start_location,
       c5order.pickup_location, c5order.delivery_location] ∧
    routeEffect (some c5stops) c5lookup (fun _ => FetchResult.error) [] =
      [(25.1825, 75.8236), (25.1825, 75.8236), (25.20, 75.85), (25.15, 75.80)] :=
  ⟨rfl, rfl⟩

/-- C6: when the fetch settles with a response carrying at least one route, the
resulting RoutePath is that first route's geometry coordinate list with every
(lon, lat) pair flipped to (lat, lon), preserving the service's point order and
count. -/
theorem c6_success_latlon (stops : List Stop) (locations : String → Option Location)
    (prev : RoutePath) (r : OsrmRoute) (rs : List OsrmRoute)
    (h2 : 2 ≤ (extractWaypoints stops locations).length) :
    routeEffect (some stops) locations (fun _ => FetchResult.ok (r :: rs)) prev =
      r.geometry.coordinates.map (fun c => (c.2, c.1)) ∧
    (routeEffect (some stops) locations (fun _ => FetchResult.ok (r :: rs)) prev).length =
      r.geometry.coordinates.length := by
  have h1 : ¬ stops.length < 1 := by
    cases stops with
    | nil =>
      exfalso
      unfold extractWaypoints at h2
      cases h : locations "DEPOT" <;> rw [h] at h2 <;> simp at h2
    | cons a l => simp
  have hw : ¬ (extractWaypoints stops locations).length < 2 := by omega
  have hmain : routeEffect (some stops) locations (fun _ => FetchResult.ok (r :: rs)) prev =
      r.geometry.coordinates.map (fun c => (c.2, c.1)) := by
    simp only [routeEffect, startResolution]
    rw [if_neg h1, if_neg hw]
    rfl
  exact ⟨hmain, by rw [hmain, List.length_map]⟩

/-- Two resolvable stops, for the C6 witness. -/
def c6stops : List Stop :=
  [{ location_id := "P", type := "pickup" }, { location_id := "Q", type := "delivery" }]

/-- A lookup resolving the two C6 stops. -/
def c6lookup : String → Option Location :=
  fun k => if k = "P" then some { lat := 3, lon := 1 }
    else if k = "Q" then some { lat := 3, lon := 2 } else none

/-- A concrete service route whose geometry carries three (lon, lat) pairs. -/
def c6route : OsrmRoute :=
  { geometry := { coordinates := [(10, 20), (11, 21), (12, 22)] } }

/-- C6 witness: the concrete successful response yields the flipped geometry. -/
theorem c6_witness :
    routeEffect (some c6stops) c6lookup (fun _ => FetchResult.ok [c6route]) [] =
      c6route.geometry.coordinates.map (fun c => (c.2, c.1)) :=
  (c6_success_latlon c6stops c6lookup [] c6route [] (by decide)).1

/-- One start, one pickup and one delivery stop, all resolvable, for the C7
theorem. -/
def c7stops : List Stop :=
  [{ location_id := "S", type := "start" },
   { location_id := "P", type := "pickup" },
   { location_id := "D", type := "delivery" }]

/-- A lookup resolving all three C7 stops. -/
def c7lookup : String → Option Location :=
  fun k => if k = "S" then some { lat := 0, lon := 0 }
    else if k = "P" then some { lat := 1, lon := 0 }
    else if k = "D" then some { lat := 2, lon := 0 } else none

/-- C7: the compositor renders a stop marker for exactly the stops that resolve
in the lookup and are not of type "start" — order and multiplicity included —
each marker carrying the stop's looked-up location; and the concrete
start/pickup/delivery list with all three resolvable yields exactly two
markers. -/
theorem c7_stop_marker_filtering (stops : List Stop)
    (locations : String → Option Location) :
    ((stopMarkers (some stops) locations).map Prod.fst =
      stops.filter (fun p => (locations p.location_id).isSome && !(p.type == "start"))) ∧
    (∀ (p : Stop) (loc : Location), (p, loc) ∈ stopMarkers (some stops) locations ↔
      p ∈ stops ∧ locations p.location_id = some loc ∧ p.type ≠ "start") ∧
    (stopMarkers (some c7stops) c7lookup).length = 2 := by
  refine ⟨?_, ?_, by decide⟩
  · simp only [stopMarkers]
    induction stops with
    | nil => rfl
    | cons a l ih =>
      rw [List.filterMap_cons, List.filter_cons]
      cases h : locations a.location_id with
      | none => simp [h, ih]
      | some loc =>
        by_cases ht : a.type = "start"
        · simp [h, ht, ih]
        · simp [h, ht, ih]
  · intro p loc
    simp only [stopMarkers, List.mem_filterMap]
    constructor
    · rintro ⟨q, hq, he⟩
      cases h : locations q.location_id with
      | none => rw [h] at he; exact absurd he (by simp)
      | some l' =>
        rw [h] at he
        by_cases ht : q.type = "start"
        · simp [ht] at he
        · simp only [if_neg ht] at he
          obtain ⟨rfl, rfl⟩ : q = p ∧ l' = loc := by
            simpa [Prod.ext_iff] using he
          exact ⟨hq, h, ht⟩
    · rintro ⟨hp, h, ht⟩
      exact ⟨p, hp, by rw [h]; simp [ht]⟩

/-- C7 witness: the concrete three-stop list renders exactly two markers. -/
theorem c7_witness : (stopMarkers (some c7stops) c7lookup).length = 2 :=
  (c7_stop_marker_filtering c7stops c7lookup).2.2

/-- A prior session state with a non-null route and no vehicle, for the C8
theorems. -/
def c8state : AppState :=
  { vehicle := none, orders := [], route := some [{ location_id := "DEPOT", type := "start" }],
    distance := 0, loading := false, error := none }

/-- C8 counterexample: on a failed order fetch the action does not leave all
prior session state unchanged — the route is cleared to null and the vehicle is
replaced by the default driver vehicle (both happen before the fetch), even
though orders and distance are indeed untouched. -/
theorem c8_counterexample :
    (handleFetchLive c8state OrdersFetchResult.err).route ≠ c8state.route ∧
    (handleFetchLive c8state OrdersFetchResult.err).vehicle ≠ c8state.vehicle ∧
    (handleFetchLive c8state OrdersFetchResult.err).orders = c8state.orders ∧
    (handleFetchLive c8state OrdersFetchResult.err).distance = c8state.distance := by
  decide

/-- C8 amended: on every failed order fetch the action sets the user-visible
error message and leaves the prior orders and distance unchanged, but —
because the synchronous prefix runs before the fetch — the route is reset to
null, the vehicle is set to the default driver vehicle, and loading ends
false. -/
theorem c8_fetch_failure_state (s : AppState) :
    handleFetchLive s OrdersFetchResult.err =
      { vehicle := some myVehicle, orders := s.orders, route := none,
        distance := s.distance, loading := false,
        error := some "Failed to fetch orders. Is backend running?" } := rfl

/-- C8 witness: the amended statement evaluated at the concrete prior state. -/
theorem c8_witness :
    handleFetchLive c8state OrdersFetchResult.err =
      { vehicle := some myVehicle, orders := c8state.orders, route := none,
        distance := c8state.distance, loading := false,
        error := some "Failed to fetch orders. Is backend running?" } :=
  c8_fetch_failure_state c8state

/-- C10 witness order. -/
def c10order : Order :=
  { id := "o10", details := "", ngo_name := ""
    pickup_location := { lat := 4, lon := 4 }
    delivery_location := { lat := 5, lon := 5 }
    pickup_window := none }

/-- C10 witness: the depot key of the concrete lookup resolves to the default
vehicle's start location. -/
theorem c10_witness :
    createLocationLookup (some myVehicle) [c10order] "DEPOT" =
      some myVehicle.start_location :=
  (c10_lookup_depot_and_domain myVehicle [c10order]).1.1
